import Mathlib

/-!
Verification of the credential-lifecycle core of rpi-spotify-controller.

The Python sources `spotify_api.py`, `token_monitor.py` and
`auto_token_manager.py` are shallowly embedded below.  State that the
Python object `SpotifyAPI` holds in memory becomes `SpotifyState`; the
JSON files on disk become `Store`; every network interaction and liveness
probe is driven by an oracle carried inside `Sys` (a list of pending
provider responses for refresh requests, a fixed response for the
client-credentials request, a list of responses for resource-API requests,
and a function deciding the outcome of the token liveness test).
Each embedded operation returns its boolean result, the updated `Sys`, and
the list of observable side effects (`Event`) it performed, in order.
Timestamps are integers; the Python code uses `time.time()` floats but the
embedded claims only involve comparisons and sums of whole seconds.
-/

namespace RpiSpotify

/-- Parsed JSON body of a token-endpoint response: `access_token` is
always present on success, `refresh_token` and `expires_in` are optional
(read with `token_data.get` or a key test in the source). -/
structure TokenData where
  access_token : String
  refresh_token : Option String
  expires_in : Option Int
deriving DecidableEq

/-- HTTP outcome of a token-endpoint request: a status code with a parsed
JSON body, or a network-level error (timeout, connection failure, which
the source catches as `requests.exceptions.RequestException`). -/
inductive HttpResult where
  | ok (status : Nat) (body : TokenData)
  | netError
deriving DecidableEq

/-- Record stored in `spotify_tokens.json`.  The `refresh_token` value can
be JSON `null` (the source stores `self.refresh_token`, which can be
`None` after a client-credentials grant), hence `Option String`. -/
structure TokenRecord where
  access_token : String
  refresh_token : Option String
  expires_at : Int
deriving DecidableEq

/-- Record stored in `spotify_tokens_backup.json`: the token record plus
`backup_time` (`_save_backup_tokens`). -/
structure BackupRecord where
  access_token : String
  refresh_token : Option String
  expires_at : Int
  backup_time : Int
deriving DecidableEq

/-- Record stored in `spotify_session.json` (`_save_session_data`). -/
structure SessionRecord where
  device_id : Option String
  last_successful_auth : Int
  auth_retry_count : Nat
  last_update : Int
deriving DecidableEq

/-- One entry of the `devices` array returned by `/me/player/devices`. -/
structure Device where
  id : String
  name : String
  is_active : Bool
deriving DecidableEq

/-- The durable files the credential code touches.  `status` is
`auto_token_status.json`; `notification` is the presence-only artifact
`auth_failure_notice.txt` written by the token monitor. -/
inductive FileId where
  | tokens
  | backup
  | session
  | status
  | notification
deriving DecidableEq

/-- Observable side effects, in program order.  `refreshCall` marks entry
into `refresh_access_token` (a refresh being attempted); `httpRefresh rt`
is the actual network POST of grant type refresh with refresh token `rt`;
`tempWrite`/`rename` never occur in the embedded source and exist only to
express the write-to-temp-then-rename discipline the spec describes. -/
inductive Event where
  | fileWrite (f : FileId)
  | fileDelete (f : FileId)
  | tempWrite (f : FileId)
  | rename (f : FileId)
  | refreshCall
  | httpRefresh (rt : String)
  | httpClientCreds
  | httpApi
  | tokenTest (tok : String)
  | sleep (secs : Nat)
deriving DecidableEq

/-- In-memory fields of the Python `SpotifyAPI` object. -/
structure SpotifyState where
  access_token : Option String
  refresh_token : Option String
  token_expires_at : Int
  device_id : Option String
  last_successful_auth : Int
  auth_retry_count : Nat
deriving DecidableEq

/-- The durable file contents (`None` models a missing file). -/
structure Store where
  tokens : Option TokenRecord
  backup : Option BackupRecord
  session : Option SessionRecord
  notification : Bool
deriving DecidableEq

/-- Response of a resource-API request (`_make_request`): a status code
with the parsed `devices` array when the body has one, or a network
error.  Only the devices endpoint needs a body in the embedded claims. -/
inductive ApiResult where
  | ok (status : Nat) (devices : Option (List Device))
  | netError
deriving DecidableEq

/-- The world a run executes in: the in-memory state, the file store, and
the environment oracles.  `rs` is the stream of provider responses to
refresh-token requests, consumed one per request (an exhausted stream
behaves as a network error); `cc` answers the client-credentials request;
`api` is the stream of resource-API responses; `test` decides whether a
given access token passes the `/me` liveness probe. -/
structure Sys where
  st : SpotifyState
  store : Store
  rs : List HttpResult
  cc : HttpResult
  api : List ApiResult
  test : String → Bool

/-- Result of an embedded operation: the boolean the Python function
returns, the updated world, and the effects performed. -/
structure StepOut where
  ok : Bool
  sys : Sys
  evs : List Event

/-- Python truthiness of an optional string: `None` and `""` are falsy. -/
def truthy : Option String → Bool
  | none => false
  | some s => !(s == "")

/-- The fresh in-memory state built by the `SpotifyAPI` constructor. -/
def init_state : SpotifyState :=
  { access_token := none
    refresh_token := none
    token_expires_at := 0
    device_id := none
    last_successful_auth := 0
    auth_retry_count := 0 }

/-- Constant `max_retries` in `_enhanced_token_refresh`. -/
def max_retries : Nat := 3

/-- Constant `retry_delay` (seconds) in `_enhanced_token_refresh`. -/
def retry_delay : Nat := 2

/-- Constant `self.max_auth_retries` set by the `SpotifyAPI` constructor. -/
def max_auth_retries : Nat := 3

/-- The hardcoded early-refresh lead time (seconds) in `authenticate`:
`time.time() > (self.token_expires_at - 300)`. -/
def auth_refresh_margin : Int := 300

/-- Embeds `_load_session_data`: copy the session file fields into memory; a
missing file leaves the constructor defaults in place. -/
def load_session_data (y : Sys) : Sys :=
  match y.store.session with
  | none => y
  | some s =>
    { y with st := { y.st with
        device_id := s.device_id
        last_successful_auth := s.last_successful_auth
        auth_retry_count := s.auth_retry_count } }

/-- Embeds `_save_session_data`: write the in-memory session fields to
`spotify_session.json` (a direct `open`/`json.dump` write). -/
def save_session_data (y : Sys) (now : Int) : Sys × List Event :=
  let s : SessionRecord :=
    { device_id := y.st.device_id
      last_successful_auth := y.st.last_successful_auth
      auth_retry_count := y.st.auth_retry_count
      last_update := now }
  ({ y with store := { y.store with session := some s } },
   [Event.fileWrite FileId.session])

/-- Embeds `_save_backup_tokens`: write `spotify_tokens_backup.json`, but only
when both the access token and the refresh token are truthy. -/
def save_backup_tokens (y : Sys) (now : Int) : Sys × List Event :=
  if truthy y.st.access_token && truthy y.st.refresh_token then
    let b : BackupRecord :=
      { access_token := y.st.access_token.getD ""
        refresh_token := y.st.refresh_token
        expires_at := y.st.token_expires_at
        backup_time := now }
    ({ y with store := { y.store with backup := some b } },
     [Event.fileWrite FileId.backup])
  else (y, [])

/-- The direct write of `spotify_tokens.json` performed inline by
`_enhanced_token_refresh` and `_try_backup_tokens`
(`open(self.token_file, "w"); json.dump(tokens, f)`). -/
def write_tokens_file (store : Store) (r : TokenRecord) : Store × List Event :=
  ({ store with tokens := some r }, [Event.fileWrite FileId.tokens])

/-- Modelled from the spec: the atomic write discipline (write the full
record to a temporary file, then rename it over the target) that section
4.1 of the spec ascribes to the credential store.  No function of the
source performs these two steps; this definition exists to compare the
described discipline with the direct writes the source performs. -/
def atomic_write_events (f : FileId) : List Event :=
  [Event.tempWrite f, Event.rename f]

/-- Embeds `_test_token`: a falsy access token fails immediately; otherwise the
liveness probe outcome is the oracle answer for that token. -/
def test_token (y : Sys) : Bool × List Event :=
  if truthy y.st.access_token then
    let t := y.st.access_token.getD ""
    (y.test t, [Event.tokenTest t])
  else (false, [])

/-- Pop the next provider response to a refresh request; an exhausted
stream behaves as a network error. -/
def pop_refresh (y : Sys) : HttpResult × Sys :=
  match y.rs with
  | [] => (HttpResult.netError, y)
  | r :: rest => (r, { y with rs := rest })

/-- Pop the next resource-API response; an exhausted stream behaves as a
network error. -/
def pop_api (y : Sys) : ApiResult × Sys :=
  match y.api with
  | [] => (ApiResult.netError, y)
  | r :: rest => (r, { y with api := rest })

/-- The rotation rule of `_enhanced_token_refresh`: the stored refresh
token is replaced only when the response body carries a `refresh_token`
key (`if "refresh_token" in token_data`). -/
def rotate_refresh (fresh old : Option String) : Option String :=
  match fresh with
  | some r => some r
  | none => old

/-- The HTTP-200 branch of `_enhanced_token_refresh`: install the new
access token, rotate the refresh token if one was supplied, recompute
`expires_at = now + expires_in` (default 3600), persist the token file,
reset the retry counter, record the successful auth and persist the
session file. -/
def refresh_success_state (y : Sys) (now : Int) (td : TokenData) :
    Sys × List Event :=
  let newRefresh := rotate_refresh td.refresh_token y.st.refresh_token
  let newExpiry := now + td.expires_in.getD 3600
  let st1 := { y.st with
      access_token := some td.access_token
      refresh_token := newRefresh
      token_expires_at := newExpiry }
  let rec1 : TokenRecord :=
    { access_token := td.access_token
      refresh_token := newRefresh
      expires_at := newExpiry }
  let (store1, wevs) := write_tokens_file y.store rec1
  let st2 := { st1 with auth_retry_count := 0, last_successful_auth := now }
  let (y2, sevs) := save_session_data { y with st := st2, store := store1 } now
  (y2, wevs ++ sevs)

/-- The retry loop of `_enhanced_token_refresh` (`for attempt in
range(max_retries)`), with the loop index and the remaining fuel made
explicit (fuel starts at `max_retries` and `attempt + fuel` stays equal
to `max_retries`, so fuel 0 is unreachable).  Before every attempt but
the first the code sleeps `retry_delay * attempt` seconds; a 200 response
succeeds; a 400 response aborts at once (refresh token invalid); any
other status or a network error retries unless this was the last
attempt. -/
def enhanced_refresh_loop (now : Int) : Nat → Nat → Sys → StepOut
  | _, 0, y => { ok := false, sys := y, evs := [] }
  | attempt, fuel + 1, y =>
    let sleeps : List Event :=
      if attempt > 0 then [Event.sleep (retry_delay * attempt)] else []
    let rt := y.st.refresh_token.getD ""
    let (resp, y1) := pop_refresh y
    let pre := sleeps ++ [Event.httpRefresh rt]
    match resp with
    | HttpResult.ok status td =>
      if status == 200 then
        let (y2, sevs) := refresh_success_state y1 now td
        { ok := true, sys := y2, evs := pre ++ sevs }
      else if status == 400 then
        { ok := false, sys := y1, evs := pre }
      else if attempt == max_retries - 1 then
        { ok := false, sys := y1, evs := pre }
      else
        let r := enhanced_refresh_loop now (attempt + 1) fuel y1
        { r with evs := pre ++ r.evs }
    | HttpResult.netError =>
      if attempt == max_retries - 1 then
        { ok := false, sys := y1, evs := pre }
      else
        let r := enhanced_refresh_loop now (attempt + 1) fuel y1
        { r with evs := pre ++ r.evs }

/-- Embeds `_enhanced_token_refresh`: bail out on a falsy refresh token,
otherwise run the retry loop. -/
def enhanced_token_refresh (y : Sys) (now : Int) : StepOut :=
  if truthy y.st.refresh_token then enhanced_refresh_loop now 0 max_retries y
  else { ok := false, sys := y, evs := [] }

/-- Embeds `_handle_auth_failure` and `_device_code_auth`: the device-code flow is
not implemented; the function prints instructions and returns `False`. -/
def handle_auth_failure (y : Sys) : StepOut :=
  { ok := false, sys := y, evs := [] }

/-- Embeds `refresh_access_token`: with no truthy refresh token fall straight
into the failure handler; otherwise run the enhanced refresh and fall
into the failure handler when it fails.  The `refreshCall` marker records
that a refresh was attempted. -/
def refresh_access_token (y : Sys) (now : Int) : StepOut :=
  if truthy y.st.refresh_token then
    let r := enhanced_token_refresh y now
    if r.ok then { r with evs := Event.refreshCall :: r.evs }
    else
      let h := handle_auth_failure r.sys
      { h with evs := Event.refreshCall :: (r.evs ++ h.evs) }
  else
    let h := handle_auth_failure y
    { h with evs := Event.refreshCall :: h.evs }

/-- Embeds `_try_backup_tokens`: with no backup file fail; otherwise load the
backup into memory, and either promote it to the primary token file when
the liveness test passes, or try to refresh with the backup refresh
token. -/
def try_backup_tokens (y : Sys) (now : Int) : StepOut :=
  match y.store.backup with
  | none => { ok := false, sys := y, evs := [] }
  | some b =>
    let y1 := { y with st := { y.st with
        access_token := some b.access_token
        refresh_token := b.refresh_token
        token_expires_at := b.expires_at } }
    let (tok, tevs) := test_token y1
    if tok then
      let rec1 : TokenRecord :=
        { access_token := b.access_token
          refresh_token := b.refresh_token
          expires_at := b.expires_at }
      let (store1, wevs) := write_tokens_file y1.store rec1
      { ok := true, sys := { y1 with store := store1 }, evs := tevs ++ wevs }
    else
      let r := refresh_access_token y1 now
      { r with evs := tevs ++ r.evs }

/-- Embeds `_try_client_credentials`: on a 200 response install the limited
token, drop the refresh token (`self.refresh_token = None`) and recompute
the expiry; on any other status or a network error fail. -/
def try_client_credentials (y : Sys) (now : Int) : StepOut :=
  match y.cc with
  | HttpResult.ok status td =>
    if status == 200 then
      { ok := true
        sys := { y with st := { y.st with
            access_token := some td.access_token
            refresh_token := none
            token_expires_at := now + td.expires_in.getD 3600 } }
        evs := [Event.httpClientCreds] }
    else { ok := false, sys := y, evs := [Event.httpClientCreds] }
  | HttpResult.netError =>
    { ok := false, sys := y, evs := [Event.httpClientCreds] }

/-- Embeds `_make_request`: an unauthenticated call raises (modelled as `none`,
which every caller in scope treats as failure); otherwise issue the
request; a 401 triggers `refresh_access_token` and, when the refresh
succeeds, one retry of the request; any remaining status of 400 or above
yields `None`; 204 yields the empty JSON object (no `devices` key). -/
def make_request (y : Sys) (now : Int) :
    Option (Option (List Device)) × Sys × List Event :=
  if truthy y.st.access_token then
    let (resp, y1) := pop_api y
    match resp with
    | ApiResult.netError => (none, y1, [Event.httpApi])
    | ApiResult.ok status body =>
      if status == 401 then
        let r := refresh_access_token y1 now
        if r.ok then
          let (resp2, y2) := pop_api r.sys
          let evs := Event.httpApi :: (r.evs ++ [Event.httpApi])
          match resp2 with
          | ApiResult.netError => (none, y2, evs)
          | ApiResult.ok status2 body2 =>
            if status2 >= 400 then (none, y2, evs)
            else if status2 == 204 then (some none, y2, evs)
            else (some body2, y2, evs)
        else (none, r.sys, Event.httpApi :: r.evs)
      else if status >= 400 then (none, y1, [Event.httpApi])
      else if status == 204 then (some none, y1, [Event.httpApi])
      else (some body, y1, [Event.httpApi])
  else (none, y, [])

/-- Embeds `_try_device_discovery`: needs an existing access token; queries the
devices endpoint and, when an active device exists, records the first one
in the session and succeeds. -/
def try_device_discovery (y : Sys) (now : Int) : StepOut :=
  if truthy y.st.access_token then
    let (devs, y1, evs) := make_request y now
    match devs with
    | some (some l) =>
      if l.isEmpty then { ok := false, sys := y1, evs := evs }
      else
        match l.filter (fun d => d.is_active) with
        | [] => { ok := false, sys := y1, evs := evs }
        | a :: _ =>
          let y2 := { y1 with st := { y1.st with device_id := some a.id } }
          let (y3, sevs) := save_session_data y2 now
          { ok := true, sys := y3, evs := evs ++ sevs }
    | _ => { ok := false, sys := y1, evs := evs }
  else { ok := false, sys := y, evs := [] }

/-- Embeds `_attempt_automatic_reauth`: bump the retry counter; refuse when the
last successful authentication is less than 300 seconds old or when the
bumped counter exceeds `max_auth_retries`; otherwise run the three
recovery strategies in order and, even when all of them fail, return
`True` to continue in limited mode. -/
def attempt_automatic_reauth (y : Sys) (now : Int) : StepOut :=
  let y0 := { y with st := { y.st with
      auth_retry_count := y.st.auth_retry_count + 1 } }
  if now - y0.st.last_successful_auth < 300 then
    { ok := false, sys := y0, evs := [] }
  else if y0.st.auth_retry_count > max_auth_retries then
    { ok := false, sys := y0, evs := [] }
  else
    let r1 := try_backup_tokens y0 now
    if r1.ok then r1
    else
      let r2 := try_client_credentials r1.sys now
      if r2.ok then { r2 with evs := r1.evs ++ r2.evs }
      else
        let r3 := try_device_discovery r2.sys now
        { ok := true, sys := r3.sys, evs := r1.evs ++ r2.evs ++ r3.evs }

/-- Lines 68 to 79 of `authenticate`: test the current token; on success
record the successful authentication, reset the retry counter and persist
the session; on failure refresh, falling back to the automatic reauth
when the refresh fails too.  `acc` carries the effects already performed
by the enclosing `authenticate` call. -/
def authenticate_test_phase (y : Sys) (now : Int) (acc : List Event) :
    StepOut :=
  let (tok, tevs) := test_token y
  if tok then
    let y1 := { y with st := { y.st with
        last_successful_auth := now, auth_retry_count := 0 } }
    let (y2, sevs) := save_session_data y1 now
    { ok := true, sys := y2, evs := acc ++ (tevs ++ sevs) }
  else
    let r := refresh_access_token y now
    if r.ok then
      { ok := true, sys := r.sys, evs := acc ++ (tevs ++ r.evs) }
    else
      let a := attempt_automatic_reauth r.sys now
      { a with evs := acc ++ (tevs ++ (r.evs ++ a.evs)) }

/-- Embeds `authenticate`: load the session file; on a present token file load
the tokens, save a backup, refresh proactively when the expiry is less
than 300 seconds away (falling back to automatic reauth on failure), then
run the token-test phase; with no token file go straight to the
automatic reauth. -/
def authenticate (y : Sys) (now : Int) : StepOut :=
  let y0 := load_session_data y
  match y0.store.tokens with
  | some r =>
    let y1 := { y0 with st := { y0.st with
        access_token := some r.access_token
        refresh_token := r.refresh_token
        token_expires_at := r.expires_at } }
    let (y2, bevs) := save_backup_tokens y1 now
    if now > y2.st.token_expires_at - auth_refresh_margin then
      let rr := refresh_access_token y2 now
      if rr.ok then authenticate_test_phase rr.sys now (bevs ++ rr.evs)
      else
        let a := attempt_automatic_reauth rr.sys now
        { a with evs := bevs ++ rr.evs ++ a.evs }
    else authenticate_test_phase y2 now bevs
  | none =>
    let a := attempt_automatic_reauth y0 now
    a

/-! ## token_monitor.py -/

/-- Embeds `TokenMonitor.refresh_token`: build a fresh `SpotifyAPI`, seed its
refresh token from the token file, attempt the refresh, and on failure
create the notification artifact (`send_notification` writes
`auth_failure_notice.txt`). -/
def monitor_refresh_token (y : Sys) (now : Int) : StepOut :=
  let seeded :=
    match y.store.tokens with
    | some r => r.refresh_token
    | none => init_state.refresh_token
  let y1 := { y with st := { init_state with refresh_token := seeded } }
  let r := refresh_access_token y1 now
  if r.ok then r
  else
    { ok := false
      sys := { r.sys with store := { r.sys.store with notification := true } }
      evs := r.evs ++ [Event.fileWrite FileId.notification] }

/-- The early-refresh lead time (seconds) in
`TokenMonitor.check_token_health`:
`current_time > (expires_at - 600)`. -/
def monitor_refresh_margin : Int := 600

/-- Embeds `TokenMonitor.check_token_health`: fail with no token file; refresh
when the token expires within 600 seconds; otherwise probe the token and
refresh only when the probe fails. -/
def check_token_health (y : Sys) (now : Int) : StepOut :=
  match y.store.tokens with
  | none => { ok := false, sys := y, evs := [] }
  | some r =>
    if now > r.expires_at - monitor_refresh_margin then
      monitor_refresh_token y now
    else if y.test r.access_token then
      { ok := true, sys := y, evs := [Event.tokenTest r.access_token] }
    else
      let m := monitor_refresh_token y now
      { m with evs := Event.tokenTest r.access_token :: m.evs }

/-- Embeds `TokenMonitor.run_check`: run one health check and, when it passes,
delete the notification artifact if present (`cleanup_notifications`). -/
def run_check (y : Sys) (now : Int) : Sys × List Event :=
  let r := check_token_health y now
  if r.ok then
    if r.sys.store.notification then
      ({ r.sys with store := { r.sys.store with notification := false } },
       r.evs ++ [Event.fileDelete FileId.notification])
    else (r.sys, r.evs)
  else (r.sys, r.evs)

/-! ## auto_token_manager.py -/

/-- Constant `self.check_interval` (seconds) of `AutoTokenManager`. -/
def check_interval : Nat := 300

/-- Constant `self.refresh_early_seconds` of `AutoTokenManager`. -/
def refresh_early_seconds : Int := 600

/-- Mutable fields of `AutoTokenManager` used by the loop. -/
structure ManagerState where
  consecutive_failures : Nat
  last_successful_refresh : Int
deriving DecidableEq

/-- The token statuses `AutoTokenManager.get_token_status` computes. -/
inductive TokenStatus where
  | no_tokens
  | expired
  | expiring_soon
  | valid
deriving DecidableEq

/-- Embeds `AutoTokenManager.get_token_status`: classify the token file by
`time_until_expiry = expires_at - now`, using a non-strict comparison
against `refresh_early_seconds`.  Also returns `time_until_expiry`. -/
def get_token_status (store : Store) (now : Int) : TokenStatus × Int :=
  match store.tokens with
  | none => (TokenStatus.no_tokens, 0)
  | some r =>
    let t := r.expires_at - now
    if t ≤ 0 then (TokenStatus.expired, t)
    else if t ≤ refresh_early_seconds then (TokenStatus.expiring_soon, t)
    else (TokenStatus.valid, t)

/-- Result of one manager operation. -/
structure MgrOut where
  ok : Bool
  mgr : ManagerState
  sys : Sys
  evs : List Event

/-- Embeds `AutoTokenManager._attempt_full_reauth`: rebuild the
`SpotifyAPI` object (fresh in-memory state) and run `authenticate`. -/
def attempt_full_reauth (y : Sys) (now : Int) : StepOut :=
  authenticate { y with st := init_state } now

/-- Embeds `AutoTokenManager.refresh_tokens_if_needed`: on an expired, expiring
or missing token attempt a refresh; a successful refresh resets the
failure counter, records the time and writes the status file; otherwise
the counter is bumped and a full reauth is attempted, writing a failed
status when that fails too.  A valid token only writes the status
file. -/
def refresh_tokens_if_needed (m : ManagerState) (y : Sys) (now : Int) :
    MgrOut :=
  match (get_token_status y.store now).1 with
  | TokenStatus.valid =>
    { ok := true, mgr := m, sys := y, evs := [Event.fileWrite FileId.status] }
  | _ =>
    let r := refresh_access_token y now
    if r.ok then
      { ok := true
        mgr := { m with consecutive_failures := 0
                        last_successful_refresh := now }
        sys := r.sys
        evs := r.evs ++ [Event.fileWrite FileId.status] }
    else
      let m1 := { m with consecutive_failures := m.consecutive_failures + 1 }
      let a := attempt_full_reauth r.sys now
      if a.ok then
        { ok := true
          mgr := { m1 with consecutive_failures := 0
                           last_successful_refresh := now }
          sys := a.sys
          evs := r.evs ++ a.evs }
      else
        { ok := false, mgr := m1, sys := a.sys
          evs := r.evs ++ a.evs ++ [Event.fileWrite FileId.status] }

/-- Result of one iteration of the manager loop: the check outcome, the
new state, and the number of seconds the loop will now sleep. -/
structure MgrStep where
  ok : Bool
  mgr : ManagerState
  sys : Sys
  sleep : Nat
  evs : List Event

/-- One iteration of `AutoTokenManager.run_continuous`: run the check,
then sleep twice the base interval when more than three consecutive
failures have accumulated, the base interval otherwise. -/
def run_continuous_step (m : ManagerState) (y : Sys) (now : Int) : MgrStep :=
  let r := refresh_tokens_if_needed m y now
  let sleep_time :=
    if r.mgr.consecutive_failures > 3 then check_interval * 2
    else check_interval
  { ok := r.ok, mgr := r.mgr, sys := r.sys, sleep := sleep_time
    evs := r.evs }

/-- Iterate the manager loop body `n` times at a fixed clock, returning
the final manager state, the final world and the sleep chosen after the
last iteration (0 when no iteration ran). -/
def run_manager_iters (now : Int) : Nat → ManagerState → Sys →
    ManagerState × Sys × Nat
  | 0, m, y => (m, y, 0)
  | Nat.succ n, m, y =>
    let r := run_continuous_step m y now
    match n with
    | 0 => (r.mgr, r.sys, r.sleep)
    | Nat.succ _ => run_manager_iters now n r.mgr r.sys

/-! ## Trace predicates used by the claims -/

/-- Whether a trace records an attempted refresh (an entry into
`refresh_access_token`). -/
def has_refresh_call (evs : List Event) : Bool :=
  evs.any fun e =>
    match e with
    | Event.refreshCall => true
    | _ => false

/-- Scan a trace for a provider refresh request that is not preceded by a
write of the backup file.  `seen` records whether a backup write has
already occurred. -/
def scan_unprotected (seen : Bool) : List Event → Bool
  | [] => false
  | e :: rest =>
    match e with
    | Event.fileWrite FileId.backup => scan_unprotected true rest
    | Event.httpRefresh _ =>
      if seen then scan_unprotected seen rest else true
    | _ => scan_unprotected seen rest

/-- Whether some provider refresh request in the trace has no earlier
backup-file write. -/
def has_unprotected_refresh (evs : List Event) : Bool :=
  scan_unprotected false evs

/-- The sleep durations occurring in a trace, in order. -/
def sleeps_of (evs : List Event) : List Nat :=
  evs.filterMap fun e =>
    match e with
    | Event.sleep n => some n
    | _ => none

/-- Classification used by `_enhanced_token_refresh`: a response is
transient when it is a network error or carries a status other than 200
and 400 (the loop retries it). -/
def is_transient : HttpResult → Bool
  | HttpResult.netError => true
  | HttpResult.ok status _ => !(status == 200) && !(status == 400)

/-- Whether a client-credentials response is a success. -/
def is_ok200 : HttpResult → Bool
  | HttpResult.ok status _ => status == 200
  | HttpResult.netError => false

/-- The provider response the refresh loop will see at attempt `j`
(counting from the current stream position): the j-th pending response,
or a network error once the stream is exhausted. -/
def resp_at (y : Sys) (j : Nat) : HttpResult :=
  (y.rs.get? j).getD HttpResult.netError

/-! ## Concrete fixtures used by witnesses and counterexamples -/

/-- An empty file store. -/
def empty_store : Store :=
  { tokens := none, backup := none, session := none, notification := false }

/-- Fixture for claim C10: fresh state, nothing on disk, every oracle
failing. -/
def c10sys : Sys :=
  { st := init_state, store := empty_store, rs := [],
    cc := HttpResult.netError, api := [], test := fun _ => false }

/-- Fixture for the C2 counterexample: no backup file, a client
credentials request answered 400, no access token in memory, so all three
recovery strategies fail. -/
def c2sys : Sys :=
  { st := init_state, store := empty_store, rs := [],
    cc := HttpResult.ok 400 { access_token := "x", refresh_token := none,
                              expires_in := none },
    api := [], test := fun _ => false }

/-- Fixture for the C2 witness: as the counterexample fixture but the
client-credentials request fails at the network level. -/
def c2wsys : Sys :=
  { st := init_state, store := empty_store, rs := [],
    cc := HttpResult.netError, api := [], test := fun _ => false }

/-- The full-capability backup record of the C9 witness fixture. -/
def c9backup : BackupRecord :=
  { access_token := "olda", refresh_token := some "oldr",
    expires_at := 900, backup_time := 800 }

/-- Fixture for the C9 witness: a limited-capability grant is available
while a full-capability backup record sits on disk. -/
def c9sys : Sys :=
  { st := init_state
    store := { empty_store with backup := some c9backup }
    rs := [],
    cc := HttpResult.ok 200 { access_token := "cc", refresh_token := none,
                              expires_in := some 3600 },
    api := [], test := fun _ => false }

/-- Fixture for claim C7: an empty store and a sample token record. -/
def c7rec : TokenRecord :=
  { access_token := "a", refresh_token := some "r", expires_at := 60 }

/-! ## Step lemmas about the refresh retry loop -/

/-- The world after one provider response has been consumed. -/
def drop_response (y : Sys) : Sys := { y with rs := y.rs.tail }

theorem pop_refresh_eq (y : Sys) :
    pop_refresh y = (resp_at y 0, drop_response y) := by
  obtain ⟨st, store, rs, cc, api, test⟩ := y
  cases rs <;> rfl

theorem drop_response_st (y : Sys) : (drop_response y).st = y.st := rfl

theorem resp_at_drop (y : Sys) (j : Nat) :
    resp_at (drop_response y) j = resp_at y (j + 1) := by
  obtain ⟨st, store, rs, cc, api, test⟩ := y
  cases rs <;> simp [resp_at, drop_response]

theorem refresh_success_state_st (y : Sys) (now : Int) (td : TokenData) :
    (refresh_success_state y now td).1.st =
      { access_token := some td.access_token
        refresh_token := rotate_refresh td.refresh_token y.st.refresh_token
        token_expires_at := now + td.expires_in.getD 3600
        device_id := y.st.device_id
        last_successful_auth := now
        auth_retry_count := 0 } := rfl

theorem refresh_success_state_tokens (y : Sys) (now : Int) (td : TokenData) :
    (refresh_success_state y now td).1.store.tokens =
      some { access_token := td.access_token
             refresh_token := rotate_refresh td.refresh_token y.st.refresh_token
             expires_at := now + td.expires_in.getD 3600 } := rfl

/-- A 200 response ends the retry loop successfully at any attempt. -/
theorem refresh_loop_success (now : Int) (attempt fuel : Nat) (y : Sys)
    (td : TokenData) (h : resp_at y 0 = HttpResult.ok 200 td) :
    enhanced_refresh_loop now attempt (fuel + 1) y =
      { ok := true
        sys := (refresh_success_state (drop_response y) now td).1
        evs :=
          (if attempt > 0 then [Event.sleep (retry_delay * attempt)] else [])
            ++ Event.httpRefresh (y.st.refresh_token.getD "") ::
               (refresh_success_state (drop_response y) now td).2 } := by
  simp [enhanced_refresh_loop, pop_refresh_eq, h]

/-- A transient response at a non-final attempt makes the loop retry. -/
theorem refresh_loop_transient (now : Int) (attempt fuel : Nat) (y : Sys)
    (h : is_transient (resp_at y 0) = true)
    (hlast : (attempt == max_retries - 1) = false) :
    enhanced_refresh_loop now attempt (fuel + 1) y =
      { ok := (enhanced_refresh_loop now (attempt + 1) fuel
                (drop_response y)).ok
        sys := (enhanced_refresh_loop now (attempt + 1) fuel
                (drop_response y)).sys
        evs :=
          (if attempt > 0 then [Event.sleep (retry_delay * attempt)] else [])
            ++ Event.httpRefresh (y.st.refresh_token.getD "") ::
               (enhanced_refresh_loop now (attempt + 1) fuel
                 (drop_response y)).evs } := by
  rcases hr : resp_at y 0 with ⟨s, td0⟩ | _
  · rw [hr] at h
    simp [is_transient] at h
    obtain ⟨h2, h4⟩ := h
    simp [enhanced_refresh_loop, pop_refresh_eq, hr, h2, h4, hlast]
  · simp [enhanced_refresh_loop, pop_refresh_eq, hr, hlast]

/-- A transient response at the final attempt (index 2) ends the loop
with failure. -/
theorem refresh_loop_last (now : Int) (fuel : Nat) (y : Sys)
    (h : is_transient (resp_at y 0) = true) :
    enhanced_refresh_loop now 2 (fuel + 1) y =
      { ok := false
        sys := drop_response y
        evs := [Event.sleep (retry_delay * 2),
                Event.httpRefresh (y.st.refresh_token.getD "")] } := by
  rcases hr : resp_at y 0 with ⟨s, td0⟩ | _
  · rw [hr] at h
    simp [is_transient] at h
    obtain ⟨h2, h4⟩ := h
    simp [enhanced_refresh_loop, pop_refresh_eq, hr, h2, h4, max_retries]
  · simp [enhanced_refresh_loop, pop_refresh_eq, hr, max_retries]

/-! ## Claim C1 -/

/-- Claim C1: every successful refresh (provider answers 200 at attempt
`k` after `k` transient failures) installs the response access token,
replaces the refresh token exactly when the response carries one — both
in memory and in the token record persisted to the primary file — and
otherwise retains the previous refresh token unchanged
(`rotate_refresh`). -/
theorem c1_rotation (y : Sys) (now : Int) (td : TokenData) (k : Nat)
    (hk : k < max_retries)
    (htr : ∀ j, j < k → is_transient (resp_at y j) = true)
    (hok : resp_at y k = HttpResult.ok 200 td)
    (hrt : truthy y.st.refresh_token = true) :
    (enhanced_token_refresh y now).ok = true ∧
    (enhanced_token_refresh y now).sys.st.refresh_token =
      rotate_refresh td.refresh_token y.st.refresh_token ∧
    (enhanced_token_refresh y now).sys.st.access_token =
      some td.access_token ∧
    (enhanced_token_refresh y now).sys.store.tokens =
      some { access_token := td.access_token
             refresh_token := rotate_refresh td.refresh_token
               y.st.refresh_token
             expires_at := now + td.expires_in.getD 3600 } := by
  have hk3 : k < 3 := by simpa [max_retries] using hk
  interval_cases k
  · simp [enhanced_token_refresh, hrt, max_retries, refresh_loop_success,
      hok, refresh_success_state_st, refresh_success_state_tokens,
      drop_response_st]
  · have h0 := htr 0 (by omega)
    simp [enhanced_token_refresh, hrt, max_retries, refresh_loop_transient,
      refresh_loop_success, h0, hok, resp_at_drop,
      refresh_success_state_st, refresh_success_state_tokens,
      drop_response_st]
  · have h0 := htr 0 (by omega)
    have h1 := htr 1 (by omega)
    simp [enhanced_token_refresh, hrt, max_retries, refresh_loop_transient,
      refresh_loop_success, h0, h1, hok, resp_at_drop,
      refresh_success_state_st, refresh_success_state_tokens,
      drop_response_st]

/-- The provider response body of the C1 witness: a 200 answer carrying a
new access token but no rotated refresh token. -/
def c1td : TokenData :=
  { access_token := "na", refresh_token := none, expires_in := some 120 }

/-- Fixture for the C1 witness: one network error followed by the 200
response, with refresh token "r" held in memory. -/
def c1sys : Sys :=
  { st := { init_state with access_token := some "a",
                            refresh_token := some "r" }
    store := empty_store
    rs := [HttpResult.netError, HttpResult.ok 200 c1td]
    cc := HttpResult.netError, api := [], test := fun _ => false }

/-- Witness for C1 at a concrete input: the 200 response arrives at the
retry attempt, omits a refresh token, and the stored refresh token "r"
is retained in memory and in the persisted record. -/
theorem c1_rotation_witness :
    (enhanced_token_refresh c1sys 50).ok = true ∧
    (enhanced_token_refresh c1sys 50).sys.st.refresh_token =
      rotate_refresh c1td.refresh_token c1sys.st.refresh_token ∧
    (enhanced_token_refresh c1sys 50).sys.st.access_token =
      some c1td.access_token ∧
    (enhanced_token_refresh c1sys 50).sys.store.tokens =
      some { access_token := c1td.access_token
             refresh_token := rotate_refresh c1td.refresh_token
               c1sys.st.refresh_token
             expires_at := 50 + c1td.expires_in.getD 3600 } :=
  c1_rotation c1sys 50 c1td 1 (by decide)
    (by intro j hj; interval_cases j; decide) (by decide) (by decide)

/-! ## Claim C5 -/

/-- Fixture for the C5 counterexample: a held refresh token and a
provider that fails at the network level on every attempt. -/
def c5sys : Sys :=
  { st := { init_state with access_token := some "a",
                            refresh_token := some "r" }
    store := empty_store, rs := [],
    cc := HttpResult.netError, api := [], test := fun _ => false }

/-- Counterexample to claim C5: under persistent transient failures the
delays slept between attempts are `retry_delay * attempt` (2 s before
attempt 1, 4 s before attempt 2) — linear, not the `base * 2 ^ attempt`
of the claim, which would demand 4 s and then 8 s. -/
theorem c5_counterexample :
    sleeps_of (enhanced_token_refresh c5sys 7).evs =
      [retry_delay * 1, retry_delay * 2] ∧
    retry_delay * 1 ≠ retry_delay * 2 ^ 1 ∧
    retry_delay * 2 ≠ retry_delay * 2 ^ 2 := by
  decide

/-- Claim C5 as amended: under transient failures (network error or a
status other than 200/400) the refresh is retried up to the fixed cap of
3 attempts, every attempt sends the same refresh token, and the delay
slept before attempt number `a` is `retry_delay * a` — linear backoff
(2 s, then 4 s), not `base * 2 ^ a`, and with no separate maximum-delay
cap beyond the attempt bound. -/
theorem c5_amended (y : Sys) (now : Int) (rt : String)
    (hrt : y.st.refresh_token = some rt)
    (hne : (rt == "") = false)
    (htr : ∀ j, j < 3 → is_transient (resp_at y j) = true) :
    (enhanced_token_refresh y now).ok = false ∧
    (enhanced_token_refresh y now).evs =
      [Event.httpRefresh rt,
       Event.sleep (retry_delay * 1), Event.httpRefresh rt,
       Event.sleep (retry_delay * 2), Event.httpRefresh rt] := by
  have h0 := htr 0 (by omega)
  have h1 := htr 1 (by omega)
  have h2 := htr 2 (by omega)
  have htru : truthy (some rt) = true := by simp [truthy, hne]
  simp [enhanced_token_refresh, htru, max_retries, refresh_loop_transient,
    refresh_loop_last, h0, h1, h2, resp_at_drop, drop_response_st, hrt]

/-- Witness for the amended C5 at a concrete input: three network
errors, three requests carrying refresh token "r", sleeps of 2 s and
4 s. -/
theorem c5_amended_witness :
    (enhanced_token_refresh c5sys 7).ok = false ∧
    (enhanced_token_refresh c5sys 7).evs =
      [Event.httpRefresh "r",
       Event.sleep (retry_delay * 1), Event.httpRefresh "r",
       Event.sleep (retry_delay * 2), Event.httpRefresh "r"] :=
  c5_amended c5sys 7 "r" rfl (by decide)
    (by intro j hj; interval_cases j <;> decide)

/-! ## Trace helper lemmas -/

theorem load_session_data_store (y : Sys) :
    (load_session_data y).store = y.store := by
  cases h : y.store.session <;> simp [load_session_data, h]

theorem save_backup_tokens_st (y : Sys) (now : Int) :
    (save_backup_tokens y now).1.st = y.st := by
  unfold save_backup_tokens
  split <;> rfl

/-- Behavior of `_save_backup_tokens` under a passing guard: the backup record is
written with one direct file write. -/
theorem save_backup_tokens_eq (y : Sys) (now : Int)
    (h : (truthy y.st.access_token && truthy y.st.refresh_token) = true) :
    save_backup_tokens y now =
      ({ y with store := { y.store with backup := some ⟨y.st.access_token.getD "", y.st.refresh_token, y.st.token_expires_at, now⟩ } },
       [Event.fileWrite FileId.backup]) := by
  unfold save_backup_tokens
  rw [if_pos h]

theorem has_refresh_call_append (l1 l2 : List Event) :
    has_refresh_call (l1 ++ l2) =
      (has_refresh_call l1 || has_refresh_call l2) := by
  simp [has_refresh_call, List.any_append]

/-- Every entry into `refresh_access_token` is recorded at the head of
its effect trace. -/
theorem refresh_call_head (y : Sys) (now : Int) :
    ∃ t, (refresh_access_token y now).evs = Event.refreshCall :: t := by
  unfold refresh_access_token
  dsimp only
  split
  · split
    · exact ⟨_, rfl⟩
    · exact ⟨_, rfl⟩
  · exact ⟨_, rfl⟩

theorem refresh_access_token_has_rc (y : Sys) (now : Int) :
    has_refresh_call (refresh_access_token y now).evs = true := by
  obtain ⟨t, ht⟩ := refresh_call_head y now
  rw [ht]
  simp [has_refresh_call]

/-- The token-test phase of `authenticate` only appends to the effects
already accumulated. -/
theorem authenticate_test_phase_acc (y : Sys) (now : Int)
    (acc : List Event) :
    ∃ t, (authenticate_test_phase y now acc).evs = acc ++ t := by
  unfold authenticate_test_phase
  dsimp only
  split
  · exact ⟨_, rfl⟩
  · split
    · exact ⟨_, rfl⟩
    · exact ⟨_, rfl⟩

theorem test_phase_preserves_rc (y : Sys) (now : Int) (acc : List Event)
    (h : has_refresh_call acc = true) :
    has_refresh_call (authenticate_test_phase y now acc).evs = true := by
  obtain ⟨t, ht⟩ := authenticate_test_phase_acc y now acc
  rw [ht, has_refresh_call_append, h]
  rfl

theorem test_phase_cons_acc (y : Sys) (now : Int) (e : Event)
    (acc : List Event) :
    ∃ t, (authenticate_test_phase y now (e :: acc)).evs = e :: t := by
  obtain ⟨t, ht⟩ := authenticate_test_phase_acc y now (e :: acc)
  exact ⟨acc ++ t, by simp [ht]⟩

/-- The monitor refresh path always records a refresh attempt. -/
theorem monitor_refresh_token_has_rc (y : Sys) (now : Int) :
    has_refresh_call (monitor_refresh_token y now).evs = true := by
  unfold monitor_refresh_token
  dsimp only
  split
  · exact refresh_access_token_has_rc _ _
  · rw [has_refresh_call_append, refresh_access_token_has_rc]
    rfl

/-- Once a backup write has been seen, the scan can never report an
unprotected refresh. -/
theorem scan_unprotected_true (evs : List Event) :
    scan_unprotected true evs = false := by
  induction evs with
  | nil => rfl
  | cons e t ih =>
    cases e with
    | fileWrite f => cases f <;> simp [scan_unprotected, ih]
    | _ => simp [scan_unprotected, ih]

theorem has_unprotected_cons_backup (t : List Event) :
    has_unprotected_refresh (Event.fileWrite FileId.backup :: t) = false := by
  simp [has_unprotected_refresh, scan_unprotected, scan_unprotected_true]

/-! ## Claim C4 -/

/-- The token record of the C4 counterexample: it expires exactly
`auth_refresh_margin` seconds after the chosen clock value 0. -/
def c4rec : TokenRecord :=
  { access_token := "a", refresh_token := some "r", expires_at := 300 }

/-- Fixture for the C4 counterexample: the liveness probe passes, so
`authenticate` can return Ready without refreshing. -/
def c4sys : Sys :=
  { st := init_state
    store := { empty_store with tokens := some c4rec }
    rs := [], cc := HttpResult.netError, api := [], test := fun _ => true }

/-- Counterexample to claim C4: at the boundary case
`expiresAt - now = margin` (expiry 300, clock 0, margin 300) the
condition `now > expiresAt - 300` of `authenticate` is false, so no
refresh is attempted, yet the call returns Ready — the claimed
non-strict comparison fails at equality. -/
theorem c4_counterexample :
    c4rec.expires_at - 0 ≤ auth_refresh_margin ∧
    (authenticate c4sys 0).ok = true ∧
    has_refresh_call (authenticate c4sys 0).evs = false := by
  decide

/-- Claim C4 as amended: the comparisons are strict in `authenticate`
(margin 300) and in `check_token_health` (margin 600) — a refresh is
attempted whenever `now` is strictly past `expiresAt - margin`, but not
at exact equality — while `get_token_status` of the auto token manager
classifies `expiresAt - now = 600` as expiring soon, and any
non-valid status makes `refresh_tokens_if_needed` attempt a refresh. -/
theorem c4_amended :
    (∀ (y : Sys) (now : Int) (r : TokenRecord),
        y.store.tokens = some r →
        now > r.expires_at - auth_refresh_margin →
        has_refresh_call (authenticate y now).evs = true) ∧
    (∀ (y : Sys) (now : Int) (r : TokenRecord),
        y.store.tokens = some r →
        now > r.expires_at - monitor_refresh_margin →
        has_refresh_call (check_token_health y now).evs = true) ∧
    (∀ (store : Store) (now : Int) (r : TokenRecord),
        store.tokens = some r →
        r.expires_at - now = refresh_early_seconds →
        (get_token_status store now).1 = TokenStatus.expiring_soon) ∧
    (∀ (m : ManagerState) (y : Sys) (now : Int),
        (get_token_status y.store now).1 ≠ TokenStatus.valid →
        has_refresh_call (refresh_tokens_if_needed m y now).evs = true) := by
  refine ⟨?_, ?_, ?_, ?_⟩
  · intro y now r hTok hexp
    unfold authenticate
    simp only [load_session_data_store, hTok]
    rw [save_backup_tokens_st]
    split
    · split
      · apply test_phase_preserves_rc
        simp [has_refresh_call_append, refresh_access_token_has_rc]
      · simp [has_refresh_call_append, refresh_access_token_has_rc]
    · next hneg => exact absurd hexp hneg
  · intro y now r hTok hexp
    unfold check_token_health
    rw [hTok]
    dsimp only
    split
    · exact monitor_refresh_token_has_rc y now
    · next hneg => exact absurd hexp hneg
  · intro store now r hTok heq
    simp [get_token_status, hTok, heq, refresh_early_seconds]
  · intro m y now hst
    unfold refresh_tokens_if_needed
    rcases h : (get_token_status y.store now).1 with _ | _ | _ | _
    · dsimp only
      split
      · simp [has_refresh_call_append, refresh_access_token_has_rc]
      · split
        · simp [has_refresh_call_append, refresh_access_token_has_rc]
        · simp [has_refresh_call_append, refresh_access_token_has_rc]
    · dsimp only
      split
      · simp [has_refresh_call_append, refresh_access_token_has_rc]
      · split
        · simp [has_refresh_call_append, refresh_access_token_has_rc]
        · simp [has_refresh_call_append, refresh_access_token_has_rc]
    · dsimp only
      split
      · simp [has_refresh_call_append, refresh_access_token_has_rc]
      · split
        · simp [has_refresh_call_append, refresh_access_token_has_rc]
        · simp [has_refresh_call_append, refresh_access_token_has_rc]
    · exact absurd h hst

/-- Fixture for the C4 witness: same store as the counterexample but the
clock one second past the boundary. -/
def c4wsys : Sys :=
  { st := init_state
    store := { empty_store with tokens := some c4rec }
    rs := [], cc := HttpResult.netError, api := [], test := fun _ => false }

/-- Witness for the amended C4 at concrete inputs: one second past the
boundary `authenticate` and `check_token_health` attempt a refresh, the
manager classifies the exact boundary as expiring soon and attempts a
refresh. -/
theorem c4_amended_witness :
    has_refresh_call (authenticate c4wsys 1).evs = true ∧
    has_refresh_call (check_token_health c4wsys 1).evs = true ∧
    (get_token_status c4wsys.store (-300)).1 = TokenStatus.expiring_soon ∧
    has_refresh_call
      (refresh_tokens_if_needed ⟨0, 0⟩ c4wsys 1).evs = true := by
  obtain ⟨ha, hc, hg, hm⟩ := c4_amended
  exact ⟨ha c4wsys 1 c4rec rfl (by decide),
         hc c4wsys 1 c4rec rfl (by decide),
         hg c4wsys.store (-300) c4rec rfl (by decide),
         hm ⟨0, 0⟩ c4wsys 1 (by decide)⟩

/-! ## Claim C6 -/

/-- The provider response body of the C6 counterexample. -/
def c6td : TokenData :=
  { access_token := "na", refresh_token := some "nr", expires_in := some 60 }

/-- Fixture for the C6 counterexample: a resource request answered 401,
then a successful refresh rewriting the primary token file, with no
backup write anywhere in the execution. -/
def c6sys : Sys :=
  { st := { init_state with access_token := some "a",
                            refresh_token := some "r" }
    store := empty_store
    rs := [HttpResult.ok 200 c6td]
    cc := HttpResult.netError
    api := [ApiResult.ok 401 none, ApiResult.ok 200 (some [])]
    test := fun _ => false }

/-- Counterexample to claim C6: the reactive 401 path of `_make_request`
issues a provider refresh — which rewrites the primary token file — with
no prior backup write in the execution, so not every primary-rewriting
refresh is preceded by a backup of the credential it replaces. -/
theorem c6_counterexample :
    has_unprotected_refresh (make_request c6sys 9).2.2 = true ∧
    Event.fileWrite FileId.tokens ∈ (make_request c6sys 9).2.2 := by
  decide

/-- On the `authenticate` path with a well-formed primary record (truthy
access and refresh tokens) the backup write is the first effect. -/
theorem authenticate_backup_first (y : Sys) (now : Int) (r : TokenRecord)
    (hTok : y.store.tokens = some r)
    (hacc : (r.access_token == "") = false)
    (href : truthy r.refresh_token = true) :
    ∃ t, (authenticate y now).evs = Event.fileWrite FileId.backup :: t := by
  have hg : (truthy (some r.access_token) && truthy r.refresh_token)
      = true := by
    rw [Bool.and_eq_true]
    exact ⟨by simp [truthy, hacc], href⟩
  unfold authenticate
  simp only [load_session_data_store, hTok]
  simp only [save_backup_tokens_eq, hg]
  split
  · split
    · exact test_phase_cons_acc _ _ _ _
    · exact ⟨_, rfl⟩
  · exact test_phase_cons_acc _ _ _ _

/-- Claim C6 as amended: only on the `authenticate` path is the backup
guaranteed to be written before any refresh — with a well-formed primary
record the backup write is the very first effect, so no provider refresh
in that execution is unprotected; the reactive 401-triggered refresh of
`_make_request` carries no such protection (see the counterexample). -/
theorem c6_amended (y : Sys) (now : Int) (r : TokenRecord)
    (hTok : y.store.tokens = some r)
    (hacc : (r.access_token == "") = false)
    (href : truthy r.refresh_token = true) :
    has_unprotected_refresh (authenticate y now).evs = false := by
  obtain ⟨t, ht⟩ := authenticate_backup_first y now r hTok hacc href
  rw [ht]
  exact has_unprotected_cons_backup t

/-- The primary record of the C6 witness fixture. -/
def c6rec : TokenRecord :=
  { access_token := "a", refresh_token := some "r", expires_at := 300 }

/-- Fixture for the C6 witness: a well-formed primary record, expired,
with every provider interaction failing. -/
def c6wsys : Sys :=
  { st := init_state
    store := { empty_store with tokens := some c6rec }
    rs := [], cc := HttpResult.netError, api := [], test := fun _ => false }

/-- Witness for the amended C6 at a concrete input. -/
theorem c6_amended_witness :
    has_unprotected_refresh (authenticate c6wsys 400).evs = false :=
  c6_amended c6wsys 400 c6rec rfl (by decide) (by decide)

/-! ## Claim C10 -/

/-- Claim C10: `_attempt_automatic_reauth` returns failure without
attempting any recovery strategy (no effects at all, and the store is
untouched) whenever fewer than 300 seconds elapsed since the last
successful authentication or the bumped retry counter exceeds 3, and in
both cases the retry counter is still incremented. -/
theorem c10_throttle (y : Sys) (now : Int)
    (h : now - y.st.last_successful_auth < 300 ∨
         y.st.auth_retry_count + 1 > 3) :
    (attempt_automatic_reauth y now).ok = false ∧
    (attempt_automatic_reauth y now).evs = [] ∧
    (attempt_automatic_reauth y now).sys.st.auth_retry_count =
      y.st.auth_retry_count + 1 ∧
    (attempt_automatic_reauth y now).sys.store = y.store := by
  unfold attempt_automatic_reauth
  by_cases h1 : now - y.st.last_successful_auth < 300
  · simp [h1]
  · have h2 : y.st.auth_retry_count + 1 > 3 := h.resolve_left h1
    simp [h1, h2, max_auth_retries]

/-- Witness for C10 at a concrete input: 100 seconds after the last
successful authentication the reauth refuses, performs nothing, and the
counter moves from 0 to 1. -/
theorem c10_throttle_witness :
    (attempt_automatic_reauth c10sys 100).ok = false ∧
    (attempt_automatic_reauth c10sys 100).evs = [] ∧
    (attempt_automatic_reauth c10sys 100).sys.st.auth_retry_count =
      c10sys.st.auth_retry_count + 1 ∧
    (attempt_automatic_reauth c10sys 100).sys.store = c10sys.store :=
  c10_throttle c10sys 100 (Or.inl (by decide))

/-! ## Claim C2 -/

/-- Counterexample to claim C2: with the throttle guards passing, no
backup file, a rejected client-credentials request and no access token,
all three recovery strategies fail, yet `_attempt_automatic_reauth`
returns success (`True`, the "continue in limited mode" branch) — the
exhaustion of the strategies is not propagated to the caller as a
failure result.  The effect trace shows that only the client-credentials
strategy performed an action. -/
theorem c2_counterexample :
    (attempt_automatic_reauth c2sys 1000).ok = true ∧
    (attempt_automatic_reauth c2sys 1000).evs = [Event.httpClientCreds] := by
  decide

/-- Claim C2 as amended: whenever all three recovery strategies fail
during an `authenticate()` call and the throttle guards pass (at least
300 seconds since the last successful authentication, retry counter
within bound), `_attempt_automatic_reauth` nevertheless returns `True`
so callers keep operating in limited mode; a failure result arises only
from the throttle guards, not from strategy exhaustion. -/
theorem c2_amended (y : Sys) (now : Int)
    (hTime : 300 ≤ now - y.st.last_successful_auth)
    (hCount : y.st.auth_retry_count + 1 ≤ 3)
    (hBackup : y.store.backup = none)
    (hCC : is_ok200 y.cc = false)
    (hTok : truthy y.st.access_token = false) :
    (attempt_automatic_reauth y now).ok = true := by
  unfold attempt_automatic_reauth try_backup_tokens try_client_credentials
    try_device_discovery
  have h1 : ¬ (now - y.st.last_successful_auth < 300) := by omega
  have h2 : ¬ (y.st.auth_retry_count + 1 > 3) := by omega
  rcases hc : y.cc with ⟨s, td⟩ | _
  · rw [hc] at hCC
    simp [is_ok200] at hCC
    simp [h1, h2, hBackup, hc, hCC, hTok, max_auth_retries]
  · simp [h1, h2, hBackup, hc, hTok, max_auth_retries]

/-- Witness for the amended C2 at a concrete input. -/
theorem c2_amended_witness :
    (attempt_automatic_reauth c2wsys 1000).ok = true :=
  c2_amended c2wsys 1000 (by decide) (by decide) (by decide) (by decide)
    (by decide)

/-! ## Claim C9 -/

/-- Claim C9: the backup file is written only when both an access token
and a refresh token are truthy in memory (otherwise `_save_backup_tokens`
leaves the backup record untouched and performs no write), a
client-credentials grant never touches the backup file, and because a
successful grant clears the refresh token, a subsequent
`_save_backup_tokens` still leaves the previous backup intact. -/
theorem c9_backup_guard (y : Sys) (now now2 : Int) :
    ((truthy y.st.access_token && truthy y.st.refresh_token) = false →
      (save_backup_tokens y now).1.store.backup = y.store.backup ∧
      (save_backup_tokens y now).2 = []) ∧
    (try_client_credentials y now).sys.store.backup = y.store.backup ∧
    ((try_client_credentials y now).ok = true →
      (save_backup_tokens (try_client_credentials y now).sys now2).1.store.backup
        = y.store.backup) := by
  refine ⟨fun hg => ?_, ?_, fun hok => ?_⟩
  · simp [save_backup_tokens, hg]
  · unfold try_client_credentials
    rcases y.cc with ⟨s, td⟩ | _
    · dsimp only
      split <;> rfl
    · rfl
  · unfold try_client_credentials at hok ⊢
    rcases hc : y.cc with ⟨s, td⟩ | _
    · rw [hc] at hok
      by_cases hs : (s == 200) = true
      · simp [hs, save_backup_tokens, truthy]
      · simp [hs] at hok
    · rw [hc] at hok
      simp at hok

/-- Witness for C9 at a concrete input: after a successful
client-credentials grant the old full-capability backup record is still
in place, even after another `_save_backup_tokens` call. -/
theorem c9_backup_guard_witness :
    ((truthy c9sys.st.access_token && truthy c9sys.st.refresh_token) = false →
      (save_backup_tokens c9sys 5).1.store.backup = c9sys.store.backup ∧
      (save_backup_tokens c9sys 5).2 = []) ∧
    (try_client_credentials c9sys 5).sys.store.backup = c9sys.store.backup ∧
    ((try_client_credentials c9sys 5).ok = true →
      (save_backup_tokens (try_client_credentials c9sys 5).sys 6).1.store.backup
        = c9sys.store.backup) :=
  c9_backup_guard c9sys 5 6

/-! ## Claim C7 -/

/-- Counterexample to claim C7: the write of the primary credential file
is a single direct write to the target; its effect trace is not the
write-to-temp-then-rename trace the claim describes. -/
theorem c7_counterexample :
    (write_tokens_file empty_store c7rec).2 =
      [Event.fileWrite FileId.tokens] ∧
    (write_tokens_file empty_store c7rec).2 ≠
      atomic_write_events FileId.tokens := by
  decide

/-- Claim C7 as amended: every durable write performed by the credential
code (primary token file, backup file, session metadata) is a single
direct `open`/`json.dump` write to the target path; none of them follows
the write-to-temp-then-rename discipline, so a crash mid-write can leave
a half-written file. -/
theorem c7_amended (y : Sys) (now : Int) (store : Store) (r : TokenRecord) :
    (write_tokens_file store r).2 = [Event.fileWrite FileId.tokens] ∧
    (save_session_data y now).2 = [Event.fileWrite FileId.session] ∧
    (save_backup_tokens y now).2 =
      (if truthy y.st.access_token && truthy y.st.refresh_token
       then [Event.fileWrite FileId.backup] else []) ∧
    (write_tokens_file store r).2 ≠ atomic_write_events FileId.tokens ∧
    (save_session_data y now).2 ≠ atomic_write_events FileId.session ∧
    (save_backup_tokens y now).2 ≠ atomic_write_events FileId.backup := by
  refine ⟨rfl, rfl, ?_, ?_, ?_, ?_⟩
  · unfold save_backup_tokens
    split <;> simp_all
  · simp [write_tokens_file, atomic_write_events]
  · simp [save_session_data, atomic_write_events]
  · unfold save_backup_tokens
    split <;> simp [atomic_write_events]

/-! ## Notification-artifact preservation lemmas

The notification artifact `auth_failure_notice.txt` is touched only by
the token monitor (`send_notification` / `cleanup_notifications`); every
function of `spotify_api.py` and of the auto token manager leaves it
unchanged.  The lemmas below establish this file by file. -/

/-- The world after one resource-API response has been consumed. -/
def drop_api (y : Sys) : Sys := { y with api := y.api.tail }

theorem pop_api_eq (y : Sys) :
    pop_api y = ((y.api.get? 0).getD ApiResult.netError, drop_api y) := by
  obtain ⟨st, store, rs, cc, api, test⟩ := y
  cases api <;> rfl

theorem refresh_success_state_notif (y : Sys) (now : Int) (td : TokenData) :
    (refresh_success_state y now td).1.store.notification =
      y.store.notification := rfl

theorem drop_response_store (y : Sys) :
    (drop_response y).store = y.store := rfl

theorem drop_api_store (y : Sys) : (drop_api y).store = y.store := rfl

theorem notif_loop (now : Int) (fuel : Nat) (attempt : Nat) (y : Sys) :
    (enhanced_refresh_loop now attempt fuel y).sys.store.notification =
      y.store.notification := by
  induction fuel generalizing attempt y with
  | zero => rfl
  | succ n ih =>
    rw [enhanced_refresh_loop, pop_refresh_eq]
    rcases h : resp_at y 0 with ⟨s, td⟩ | _
    · dsimp only
      split
      · exact refresh_success_state_notif (drop_response y) now td
      · split
        · rfl
        · split
          · rfl
          · exact ih (attempt + 1) (drop_response y)
    · dsimp only
      split
      · rfl
      · exact ih (attempt + 1) (drop_response y)

theorem notif_enhanced (y : Sys) (now : Int) :
    (enhanced_token_refresh y now).sys.store.notification =
      y.store.notification := by
  unfold enhanced_token_refresh
  split
  · exact notif_loop now max_retries 0 y
  · rfl

theorem notif_refresh (y : Sys) (now : Int) :
    (refresh_access_token y now).sys.store.notification =
      y.store.notification := by
  unfold refresh_access_token
  dsimp only
  split
  · split
    · exact notif_enhanced y now
    · exact notif_enhanced y now
  · rfl

theorem save_backup_tokens_notif (y : Sys) (now : Int) :
    (save_backup_tokens y now).1.store.notification =
      y.store.notification := by
  unfold save_backup_tokens
  split <;> rfl

theorem notif_try_backup (y : Sys) (now : Int) :
    (try_backup_tokens y now).sys.store.notification =
      y.store.notification := by
  unfold try_backup_tokens
  rcases h : y.store.backup with _ | b
  · rfl
  · dsimp only
    split
    · rfl
    · exact notif_refresh _ now

theorem notif_try_cc (y : Sys) (now : Int) :
    (try_client_credentials y now).sys.store.notification =
      y.store.notification := by
  unfold try_client_credentials
  rcases y.cc with ⟨s, td⟩ | _
  · dsimp only
    split <;> rfl
  · rfl

theorem notif_make_request (y : Sys) (now : Int) :
    (make_request y now).2.1.store.notification =
      y.store.notification := by
  unfold make_request
  split
  · rw [pop_api_eq]
    rcases h : (y.api.get? 0).getD ApiResult.netError with ⟨s, body⟩ | _
    · dsimp only
      split
      · split
        · rw [pop_api_eq]
          rcases h2 : ((refresh_access_token (drop_api y) now).sys.api.get?
              0).getD ApiResult.netError with ⟨s2, body2⟩ | _
          · dsimp only
            split
            · exact notif_refresh (drop_api y) now
            · split
              · exact notif_refresh (drop_api y) now
              · exact notif_refresh (drop_api y) now
          · exact notif_refresh (drop_api y) now
        · exact notif_refresh (drop_api y) now
      · split
        · rfl
        · split <;> rfl
    · rfl
  · rfl

theorem notif_device_discovery (y : Sys) (now : Int) :
    (try_device_discovery y now).sys.store.notification =
      y.store.notification := by
  unfold try_device_discovery
  split
  · rcases h : (make_request y now).1 with _ | devs
    · dsimp only
      rw [h]
      exact notif_make_request y now
    · rcases devs with _ | l
      · dsimp only
        rw [h]
        exact notif_make_request y now
      · dsimp only
        rw [h]
        dsimp only
        split
        · exact notif_make_request y now
        · split
          · exact notif_make_request y now
          · exact notif_make_request y now
  · rfl

theorem notif_reauth (y : Sys) (now : Int) :
    (attempt_automatic_reauth y now).sys.store.notification =
      y.store.notification := by
  unfold attempt_automatic_reauth
  dsimp only
  split
  · rfl
  · split
    · rfl
    · split
      · exact notif_try_backup _ now
      · split
        · rw [notif_try_cc, notif_try_backup]
        · rw [notif_device_discovery, notif_try_cc, notif_try_backup]

theorem notif_test_phase (y : Sys) (now : Int) (acc : List Event) :
    (authenticate_test_phase y now acc).sys.store.notification =
      y.store.notification := by
  unfold authenticate_test_phase
  dsimp only
  split
  · rfl
  · split
    · exact notif_refresh y now
    · rw [notif_reauth, notif_refresh]

theorem notif_authenticate (y : Sys) (now : Int) :
    (authenticate y now).sys.store.notification =
      y.store.notification := by
  unfold authenticate
  simp only [load_session_data_store]
  rcases h : y.store.tokens with _ | r
  · simp only [h]
    rw [notif_reauth, load_session_data_store]
  · simp only [h]
    split
    · split
      · rw [notif_test_phase, notif_refresh, save_backup_tokens_notif]
      · rw [notif_reauth, notif_refresh, save_backup_tokens_notif]
    · rw [notif_test_phase, save_backup_tokens_notif]

theorem notif_full_reauth (y : Sys) (now : Int) :
    (attempt_full_reauth y now).sys.store.notification =
      y.store.notification := by
  unfold attempt_full_reauth
  exact notif_authenticate _ now

theorem notif_refresh_tokens_if_needed (m : ManagerState) (y : Sys)
    (now : Int) :
    (refresh_tokens_if_needed m y now).sys.store.notification =
      y.store.notification := by
  unfold refresh_tokens_if_needed
  rcases h : (get_token_status y.store now).1 with _ | _ | _ | _ <;>
    dsimp only
  · split
    · exact notif_refresh y now
    · split
      · rw [notif_full_reauth, notif_refresh]
      · rw [notif_full_reauth, notif_refresh]
  · split
    · exact notif_refresh y now
    · split
      · rw [notif_full_reauth, notif_refresh]
      · rw [notif_full_reauth, notif_refresh]
  · split
    · exact notif_refresh y now
    · split
      · rw [notif_full_reauth, notif_refresh]
      · rw [notif_full_reauth, notif_refresh]

/-! ## Claim C8 -/

/-- The expired token record of the C8 fixtures. -/
def c8rec : TokenRecord :=
  { access_token := "a", refresh_token := some "r", expires_at := 0 }

/-- Fixture for the C8 counterexample: an expired token, every refresh
attempt failing at the network level, every probe failing, so every
iteration of the manager loop is a failure. -/
def c8sys : Sys :=
  { st := init_state
    store := { empty_store with tokens := some c8rec }
    rs := [], cc := HttpResult.netError, api := [], test := fun _ => false }

/-- Counterexample to claim C8: after 4 consecutive failing checks of
the auto token manager the next interval is indeed doubled, but the
notification artifact does not exist — the manager service never creates
it (the artifact belongs to the separate token monitor service), so the
claimed conjunction fails. -/
theorem c8_counterexample :
    (run_manager_iters 100 4 ⟨0, 0⟩ c8sys).2.2 = check_interval * 2 ∧
    (run_manager_iters 100 4 ⟨0, 0⟩ c8sys).1.consecutive_failures = 4 ∧
    (run_manager_iters 100 4 ⟨0, 0⟩ c8sys).2.1.store.notification = false := by
  decide

/-- Claim C8 as amended: in the auto token manager, the iteration sleeps
twice the base interval exactly when more than 3 consecutive failures
have accumulated, and a check whose refresh (or full reauth) succeeds on
a non-valid token resets the failure count to 0, restoring the base
interval; the manager never touches the notification artifact.  The
artifact is managed by the separate token monitor: its refresh failure
creates the artifact, and a successful health check deletes it. -/
theorem c8_amended :
    (∀ (m : ManagerState) (y : Sys) (now : Int),
        (run_continuous_step m y now).sleep =
          (if (run_continuous_step m y now).mgr.consecutive_failures > 3
           then check_interval * 2 else check_interval)) ∧
    (∀ (m : ManagerState) (y : Sys) (now : Int),
        (run_continuous_step m y now).sys.store.notification =
          y.store.notification) ∧
    (∀ (m : ManagerState) (y : Sys) (now : Int),
        (refresh_tokens_if_needed m y now).ok = true →
        (get_token_status y.store now).1 ≠ TokenStatus.valid →
        (refresh_tokens_if_needed m y now).mgr.consecutive_failures = 0) ∧
    (∀ (y : Sys) (now : Int),
        (monitor_refresh_token y now).ok = false →
        (monitor_refresh_token y now).sys.store.notification = true) ∧
    (∀ (y : Sys) (now : Int),
        (check_token_health y now).ok = true →
        (run_check y now).1.store.notification = false) := by
  refine ⟨?_, ?_, ?_, ?_, ?_⟩
  · intro m y now
    rfl
  · intro m y now
    unfold run_continuous_step
    dsimp only
    exact notif_refresh_tokens_if_needed m y now
  · intro m y now hok hst
    unfold refresh_tokens_if_needed at hok ⊢
    rcases h : (get_token_status y.store now).1 with _ | _ | _ | _
    · dsimp only at hok ⊢
      by_cases hr : (refresh_access_token y now).ok = true
      · simp [hr]
      · by_cases ha :
          (attempt_full_reauth (refresh_access_token y now).sys now).ok = true
        · simp [hr, ha]
        · simp [hr, ha] at hok
    · dsimp only at hok ⊢
      by_cases hr : (refresh_access_token y now).ok = true
      · simp [hr]
      · by_cases ha :
          (attempt_full_reauth (refresh_access_token y now).sys now).ok = true
        · simp [hr, ha]
        · simp [hr, ha] at hok
    · dsimp only at hok ⊢
      by_cases hr : (refresh_access_token y now).ok = true
      · simp [hr]
      · by_cases ha :
          (attempt_full_reauth (refresh_access_token y now).sys now).ok = true
        · simp [hr, ha]
        · simp [hr, ha] at hok
    · exact absurd h hst
  · intro y now hfail
    unfold monitor_refresh_token at hfail ⊢
    dsimp only at hfail ⊢
    split
    · next hr => simp [hr] at hfail
    · rfl
  · intro y now hok
    unfold run_check
    rw [if_pos hok]
    split
    · rfl
    · next hnot => exact Bool.not_eq_true _ ▸ (by simpa using hnot)

/-- Fixture for the C8 witness (part 3): the refresh succeeds on the
first attempt, so the failure count resets. -/
def c8wsys : Sys :=
  { st := { init_state with access_token := some "a",
                            refresh_token := some "r" }
    store := { empty_store with tokens := some c8rec }
    rs := [HttpResult.ok 200 { access_token := "na", refresh_token := none,
                               expires_in := some 3600 }]
    cc := HttpResult.netError, api := [], test := fun _ => false }

/-- The far-future record of the C8 witness (part 5). -/
def c8vrec : TokenRecord :=
  { access_token := "a", refresh_token := some "r", expires_at := 10000 }

/-- Fixture for the C8 witness (part 5): a healthy token, a passing
probe, and a present notification artifact for the check to delete. -/
def c8vsys : Sys :=
  { st := init_state
    store := { tokens := some c8vrec, backup := none, session := none,
               notification := true }
    rs := [], cc := HttpResult.netError, api := [], test := fun _ => true }

/-- Witness for the amended C8 at concrete inputs. -/
theorem c8_amended_witness :
    (run_continuous_step ⟨5, 0⟩ c8sys 100).sleep =
      (if (run_continuous_step ⟨5, 0⟩ c8sys 100).mgr.consecutive_failures > 3
       then check_interval * 2 else check_interval) ∧
    (run_continuous_step ⟨5, 0⟩ c8sys 100).sys.store.notification =
      c8sys.store.notification ∧
    (refresh_tokens_if_needed ⟨2, 0⟩ c8wsys 100).mgr.consecutive_failures
      = 0 ∧
    (monitor_refresh_token c8sys 100).sys.store.notification = true ∧
    (run_check c8vsys 0).1.store.notification = false := by
  obtain ⟨h1, h2, h3, h4, h5⟩ := c8_amended
  exact ⟨h1 ⟨5, 0⟩ c8sys 100, h2 ⟨5, 0⟩ c8sys 100,
         h3 ⟨2, 0⟩ c8wsys 100 (by decide) (by decide),
         h4 c8sys 100 (by decide),
         h5 c8vsys 0 (by decide)⟩

end RpiSpotify
